import Mathlib

/-!
Verification of the Tekhunt/mcp_server repository.

A shallow embedding of the two sides of the system:

* the MCP tool server (`src/servers/mcp_tools/local_tools.py` with the
  pydantic models of `src/servers/models/local_models.py`): argument
  validation, the six tool handlers, and the `call_tool` dispatcher;
* the autonomous client loop (`src/clients/openai_client.py`,
  `run_autonomous_agent`): conversation state, the per-turn
  inference/dispatch loop with its iteration ceiling, and the
  turn-level error cleanup.

Modelling conventions:
* Python floats are modelled as `ℚ`.  Every numeric value the theorems
  below exercise is exactly representable as an IEEE double, so rational
  arithmetic agrees with the Python float arithmetic on those values.
* `datetime.now()` results are opaque: a `PyDatetime` is known only
  through its three renderings (`isoformat()`, the `strftime` "human"
  form, and the unix-seconds form).  Handlers take the current time as
  an explicit parameter.
* The file system seen by `read_file` is an explicit oracle
  `String → Except PyErr String` (content of the named file, or the
  exception `open`/`read` raises).
* A raised Python exception is a `PyErr`: the class name
  (`type(e).__name__`) and the message (`str(e)`).  Pydantic wraps field
  failures in a `ValidationError`; its long multi-line text is condensed
  here to `"<field>: <constraint text>"`, keeping exactly the constraint
  wording of the source (`Field required`, pattern text, the custom
  validators' `ValueError` messages, …).
-/

namespace McpServer

/-! ## JSON-ish argument payloads

The model emits tool arguments as JSON; `json.loads` hands the server a
dict.  The six tools only ever read string fields, numeric fields and
optional lists of strings, so argument values are modelled by exactly
those shapes. -/

inductive JValue where
  | jnull
  | jbool (b : Bool)
  | jnum (q : ℚ)
  | jstr (s : String)
  | jstrlist (xs : List String)
deriving DecidableEq, Repr

/-- An argument payload: the key/value pairs of the JSON object. -/
abbrev Args := List (String × JValue)

/-- `arguments.get(k)` — first binding of key `k`, if any. -/
def getArg (args : Args) (k : String) : Option JValue :=
  (args.find? (fun p => p.1 == k)).map (·.2)

/-- A raised Python exception: class name and message. -/
structure PyErr where
  etype : String
  msg : String
deriving DecidableEq, Repr

/-- A `datetime.now()` value, known through its renderings. -/
structure PyDatetime where
  iso : String
  human : String
  unix : String
deriving DecidableEq, Repr

/-- A pydantic `ValidationError` for one field, rendered
`"<field>: <constraint>"`. -/
def fieldErr (f m : String) : PyErr :=
  ⟨"ValidationError", f ++ ": " ++ m⟩

/-- Python's `f"{x}"` for a float `x` whose value is an integer prints a
trailing `.0` (e.g. `2.0`).  Non-integral floats print their shortest
round-trip decimal; no claim exercises one, and they are rendered here
as `num/den`. -/
def pyFloatRepr (q : ℚ) : String :=
  if q.den = 1 then toString q.num ++ ".0"
  else toString q.num ++ "/" ++ toString q.den

/-! ## Validated tool inputs (`local_models.py`) -/

/-- `CalculateInput` after validation. -/
structure CalcIn where
  operation : String
  a : ℚ
  b : ℚ
deriving DecidableEq, Repr

/-- `WeatherInput` after validation (city already stripped). -/
structure WeatherIn where
  city : String
deriving DecidableEq, Repr

/-- `NoteInput` after validation; the title is kept as a character list
because the filename theorems reason character by character. -/
structure NoteIn where
  title : List Char
  content : String
  tags : Option (List String)
deriving DecidableEq, Repr

/-- `TemperatureInput` after validation. -/
structure TempIn where
  temperature_fahrenheit : ℚ
deriving DecidableEq, Repr

/-- `FileReadInput` after validation. -/
structure FileIn where
  filename : String
deriving DecidableEq, Repr

/-- Python `str.strip()` whitespace test (the characters that can occur
in the payloads at hand). -/
def isPySpace (c : Char) : Bool :=
  c = ' ' ∨ c = '\t' ∨ c = '\n' ∨ c = '\r'

/-- Python `str.strip()` on a character list. -/
def pyStrip (l : List Char) : List Char :=
  ((l.dropWhile isPySpace).reverse.dropWhile isPySpace).reverse

/-- The character whitelist of `NoteInput.sanitize_title`. -/
def safeCharsList : List Char :=
  "abcdefghijklmnopqrstuvwxyzABCDEFGHIJKLMNOPQRSTUVWXYZ0123456789-_ ".toList

/-- Split a character list on `/` (Python `str.split('/')`). -/
def splitSlash : List Char → List (List Char)
  | [] => [[]]
  | c :: rest =>
    if c = '/' then [] :: splitSlash rest
    else
      match splitSlash rest with
      | [] => [[c]]
      | h :: t => (c :: h) :: t

/-- `pathlib.Path(v).name` for POSIX paths: split on `/`, drop empty and
`.` components (`..` is kept), take the last component. -/
def pyPathName (v : String) : String :=
  match ((splitSlash v.toList).filter (fun c => c ≠ [] ∧ c ≠ ['.'])).getLast? with
  | some c => String.mk c
  | none => ""

/-- `CalculateInput(**arguments)`: `operation` must match
`^(add|subtract|multiply|divide)$`, `a` and `b` are floats, and the
`validate_division` field validator rejects `b = 0` when the (already
validated) operation is `divide`. -/
def validateCalculate (args : Args) : Except PyErr CalcIn :=
  match getArg args "operation" with
  | none => .error (fieldErr "operation" "Field required")
  | some (.jstr op) =>
    if op ∈ (["add", "subtract", "multiply", "divide"] : List String) then
      match getArg args "a" with
      | none => .error (fieldErr "a" "Field required")
      | some (.jnum a) =>
        match getArg args "b" with
        | none => .error (fieldErr "b" "Field required")
        | some (.jnum b) =>
          if op = "divide" ∧ b = 0 then
            .error (fieldErr "b" "Value error, Cannot divide by zero")
          else .ok ⟨op, a, b⟩
        | some _ => .error (fieldErr "b" "Input should be a valid number")
      | some _ => .error (fieldErr "a" "Input should be a valid number")
    else
      .error (fieldErr "operation"
        "String should match pattern (add|subtract|multiply|divide)")
  | some _ => .error (fieldErr "operation" "Input should be a valid string")

/-- `WeatherInput(**arguments)`: `city` is a string of length 1..100,
then stripped by `validate_city`. -/
def validateWeather (args : Args) : Except PyErr WeatherIn :=
  match getArg args "city" with
  | none => .error (fieldErr "city" "Field required")
  | some (.jstr c) =>
    if c.length < 1 then
      .error (fieldErr "city" "String should have at least 1 character")
    else if 100 < c.length then
      .error (fieldErr "city" "String should have at most 100 characters")
    else .ok ⟨String.mk (pyStrip c.toList)⟩
  | some _ => .error (fieldErr "city" "Input should be a valid string")

/-- `NoteInput.sanitize_title`: keep only whitelisted characters, strip,
reject an empty result. -/
def sanitizeTitle (v : List Char) : Except PyErr (List Char) :=
  let s := pyStrip (v.filter (· ∈ safeCharsList))
  if s = [] then
    .error (fieldErr "title"
      "Value error, Title must contain at least one alphanumeric character")
  else .ok s

/-- `NoteInput(**arguments)`: `title` (string, 1..100 chars, sanitized),
`content` (string, at least 1 char), `tags` (optional list of strings). -/
def validateNote (args : Args) : Except PyErr NoteIn :=
  match getArg args "title" with
  | none => .error (fieldErr "title" "Field required")
  | some (.jstr t) =>
    if t.length < 1 then
      .error (fieldErr "title" "String should have at least 1 character")
    else if 100 < t.length then
      .error (fieldErr "title" "String should have at most 100 characters")
    else
      match sanitizeTitle t.toList with
      | .error e => .error e
      | .ok s =>
        match getArg args "content" with
        | none => .error (fieldErr "content" "Field required")
        | some (.jstr c) =>
          if c.length < 1 then
            .error (fieldErr "content" "String should have at least 1 character")
          else
            match getArg args "tags" with
            | none => .ok ⟨s, c, none⟩
            | some .jnull => .ok ⟨s, c, none⟩
            | some (.jstrlist ts) => .ok ⟨s, c, some ts⟩
            | some _ => .error (fieldErr "tags" "Input should be a valid list")
        | some _ => .error (fieldErr "content" "Input should be a valid string")
  | some _ => .error (fieldErr "title" "Input should be a valid string")

/-- `TemperatureInput(**arguments)`: a float not below absolute zero. -/
def validateTemperature (args : Args) : Except PyErr TempIn :=
  match getArg args "temperature_fahrenheit" with
  | none => .error (fieldErr "temperature_fahrenheit" "Field required")
  | some (.jnum v) =>
    if v < -45967 / 100 then
      .error (fieldErr "temperature_fahrenheit"
        "Value error, Temperature cannot be below absolute zero (-459.67°F)")
    else .ok ⟨v⟩
  | some _ =>
    .error (fieldErr "temperature_fahrenheit" "Input should be a valid number")

/-- `FileReadInput(**arguments)`: a non-empty string whose
`Path(v).name` equals `v` itself (no path components). -/
def validateFileRead (args : Args) : Except PyErr FileIn :=
  match getArg args "filename" with
  | none => .error (fieldErr "filename" "Field required")
  | some (.jstr v) =>
    if v.length < 1 then
      .error (fieldErr "filename" "String should have at least 1 character")
    else if pyPathName v = "" ∨ pyPathName v ≠ v then
      .error (fieldErr "filename"
        "Value error, Invalid filename - path traversal not allowed")
    else .ok ⟨v⟩
  | some _ => .error (fieldErr "filename" "Input should be a valid string")

/-- `TimeInput(**arguments)`: `format` defaults to `"iso"` and must
match `^(iso|human|unix)$`. -/
def validateTime (args : Args) : Except PyErr String :=
  match getArg args "format" with
  | none => .ok "iso"
  | some (.jstr f) =>
    if f ∈ (["iso", "human", "unix"] : List String) then .ok f
    else .error (fieldErr "format" "String should match pattern (iso|human|unix)")
  | some _ => .error (fieldErr "format" "Input should be a valid string")

/-! ## Structured outputs (`local_models.py`) -/

/-- `CalculateOutput`. -/
structure CalculateOutput where
  operation : String
  operand_a : ℚ
  operand_b : ℚ
  result : ℚ
  formatted : String
  timestamp : PyDatetime
deriving DecidableEq, Repr

/-- `WeatherOutput`. -/
structure WeatherOutput where
  city : String
  temperature : String
  temperature_celsius : Option ℚ
  condition : String
  humidity : String
  wind : String
  timestamp : PyDatetime
deriving DecidableEq, Repr

/-- `NoteOutput`. -/
structure NoteOutput where
  filename : List Char
  title : List Char
  content_length : ℕ
  tags : Option (List String)
  created_at : PyDatetime
  success : Bool
  message : String
deriving DecidableEq, Repr

/-- `TemperatureOutput`. -/
structure TemperatureOutput where
  fahrenheit : ℚ
  celsius : ℚ
  formatted : String
  timestamp : PyDatetime
deriving DecidableEq, Repr

/-- `FileReadOutput`. -/
structure FileReadOutput where
  filename : String
  content : String
  size_bytes : ℕ
  lines : ℕ
  success : Bool
deriving DecidableEq, Repr

/-- `TimeOutput`. -/
structure TimeOutput where
  timestamp : PyDatetime
  formatted : String
  format_type : String
  timezone : String
deriving DecidableEq, Repr

/-- One tool's successful structured payload. -/
inductive OutValue where
  | calc (o : CalculateOutput)
  | weather (o : WeatherOutput)
  | note (o : NoteOutput)
  | temp (o : TemperatureOutput)
  | file (o : FileReadOutput)
  | time (o : TimeOutput)
deriving DecidableEq, Repr

/-- The uniform result envelope every handler returns: either a success
payload serialized into the `TextContent`, or an `ErrorOutput`
(`success=false`, `error_type`, `error_message`, timestamp). -/
inductive ToolOutput where
  | ok (v : OutValue)
  | err (error_type error_message : String) (timestamp : PyDatetime)
deriving DecidableEq, Repr

/-- The spec's `ToolResult.is_error`: whether the envelope carries an
`ErrorOutput`. -/
def ToolOutput.is_error : ToolOutput → Bool
  | .ok _ => false
  | .err _ _ _ => true

/-! ## Tool handlers (`local_tools.py`) -/

/-- The arithmetic table of `calculate`.  `ℚ` division by zero is never
reached: the validator rejects `divide` with `b = 0`. -/
def applyOp (op : String) (x y : ℚ) : ℚ :=
  if op = "add" then x + y
  else if op = "subtract" then x - y
  else if op = "multiply" then x * y
  else x / y

/-- `calculate(arguments)` (`local_tools.py:77`): validate, compute,
return a `CalculateOutput`; any exception becomes an `ErrorOutput` with
the exception's class name and message. -/
def calculate (now : PyDatetime) (args : Args) : ToolOutput :=
  match validateCalculate args with
  | .error e => .err e.etype e.msg now
  | .ok i =>
    let result := applyOp i.operation i.a i.b
    .ok (.calc
      { operation := i.operation
        operand_a := i.a
        operand_b := i.b
        result := result
        formatted := pyFloatRepr i.a ++ " " ++ i.operation ++ " "
          ++ pyFloatRepr i.b ++ " = " ++ pyFloatRepr result
        timestamp := now })

/-- `get_weather(arguments)` (`local_tools.py:119`): validate, return
the fixed simulated weather. -/
def get_weather (now : PyDatetime) (args : Args) : ToolOutput :=
  match validateWeather args with
  | .error e => .err e.etype e.msg now
  | .ok i =>
    .ok (.weather
      { city := i.city
        temperature := "72°F"
        temperature_celsius := some (111 / 5)
        condition := "Sunny"
        humidity := "45%"
        wind := "10 mph"
        timestamp := now })

/-- The filename `save_note` writes:
`f"note_{title.replace(' ', '_')}.txt"` on the sanitized title. -/
def noteFilename (title : List Char) : List Char :=
  "note_".toList
    ++ title.map (fun c => if c = ' ' then '_' else c)
    ++ ".txt".toList

/-- The bytes `save_note` writes: title line, created line, optional
tags line (only when the tag list is truthy, i.e. non-empty), blank
line, content. -/
def noteFileData (now : PyDatetime) (i : NoteIn) : String :=
  "Title: " ++ String.mk i.title ++ "\n"
    ++ "Created: " ++ now.iso ++ "\n"
    ++ (match i.tags with
        | some ts => if ts ≠ [] then "Tags: " ++ String.intercalate ", " ts ++ "\n" else ""
        | none => "")
    ++ "\n" ++ i.content

/-- A file written by `save_note`. -/
structure FileWrite where
  filename : List Char
  data : String
deriving DecidableEq, Repr

/-- `save_note(arguments)` (`local_tools.py:151`): validate, write the
note file, return a `NoteOutput`.  The second component records the
side effect: `none` exactly when no file was written.  (The two
`datetime.now()` calls of the source are both modelled by `now`.) -/
def save_note (now : PyDatetime) (args : Args) : ToolOutput × Option FileWrite :=
  match validateNote args with
  | .error e => (.err e.etype e.msg now, none)
  | .ok i =>
    let filename := noteFilename i.title
    (.ok (.note
      { filename := filename
        title := i.title
        content_length := i.content.length
        tags := i.tags
        created_at := now
        success := true
        message := "Note successfully saved to " ++ String.mk filename }),
     some ⟨filename, noteFileData now i⟩)

/-- Python's `round(x, 2)` (modelled; the source's half-way behaviour
on binary floats is banker's rounding, which no claim exercises). -/
def round2 (q : ℚ) : ℚ := (round (q * 100) : ℤ) / 100

/-- Python's `f"{x:.2f}"` (modelled with the same rounding caveat). -/
def format2 (q : ℚ) : String :=
  let c : ℤ := round (q * 100)
  let a := c.natAbs
  (if c < 0 then "-" else "")
    ++ toString (a / 100) ++ "."
    ++ (if a % 100 < 10 then "0" else "") ++ toString (a % 100)

/-- `convert_temperature(arguments)` (`local_tools.py:193`). -/
def convert_temperature (now : PyDatetime) (args : Args) : ToolOutput :=
  match validateTemperature args with
  | .error e => .err e.etype e.msg now
  | .ok i =>
    let celsius := (i.temperature_fahrenheit - 32) * 5 / 9
    .ok (.temp
      { fahrenheit := i.temperature_fahrenheit
        celsius := round2 celsius
        formatted := pyFloatRepr i.temperature_fahrenheit ++ "°F = "
          ++ format2 celsius ++ "°C"
        timestamp := now })

/-- `str(arguments.get('filename'))` as used in `read_file`'s
`FileNotFoundError` message; on every reachable path the argument is
the validated string. -/
def rawFilename (args : Args) : String :=
  match getArg args "filename" with
  | some (.jstr s) => s
  | _ => "None"

/-- Python `str.splitlines()` length: one line per newline, plus a final
unterminated line when the text is non-empty and does not end in a
newline.  (The rarer line-break characters Python also splits on do not
occur in the payloads at hand.) -/
def pyLineCount (s : String) : ℕ :=
  s.toList.count '\n'
    + (if s ≠ "" ∧ s.toList.getLast? ≠ some '\n' then 1 else 0)

/-- `read_file(arguments)` (`local_tools.py:225`): validate, read via
the file-system oracle.  A `FileNotFoundError` is converted to an
`ErrorOutput` with a substituted message naming the file
(`local_tools.py:250-255`); every other exception keeps its class name
and message verbatim (`local_tools.py:256-262`). -/
def read_file (now : PyDatetime) (fs : String → Except PyErr String)
    (args : Args) : ToolOutput :=
  match validateFileRead args with
  | .error e => .err e.etype e.msg now
  | .ok i =>
    match fs i.filename with
    | .error exc =>
      if exc.etype = "FileNotFoundError" then
        .err "FileNotFoundError" ("File '" ++ rawFilename args ++ "' not found") now
      else .err exc.etype exc.msg now
    | .ok content =>
      .ok (.file
        { filename := i.filename
          content := content
          size_bytes := content.utf8ByteSize
          lines := pyLineCount content
          success := true })

/-- `get_time(arguments)` (`local_tools.py:265`): validate (the format
defaults to `"iso"`), render the current time in the requested
format. -/
def get_time (now : PyDatetime) (args : Args) : ToolOutput :=
  match validateTime args with
  | .error e => .err e.etype e.msg now
  | .ok f =>
    let formatted :=
      if f = "iso" then now.iso
      else if f = "human" then now.human
      else now.unix
    .ok (.time
      { timestamp := now
        formatted := formatted
        format_type := f
        timezone := "UTC" })

/-- The keys of `TOOL_HANDLERS` (`local_tools.py:305`). -/
def TOOL_HANDLERS : List String :=
  ["calculate", "get_weather", "save_note", "convert_temperature",
   "read_file", "get_time"]

/-- `call_tool(name, arguments)` (`local_tools.py:356`): dispatch to the
registered handler, or return an `UnknownToolError` `ErrorOutput` for a
name outside the registry. -/
def call_tool (now : PyDatetime) (fs : String → Except PyErr String)
    (name : String) (args : Args) : ToolOutput :=
  if name = "calculate" then calculate now args
  else if name = "get_weather" then get_weather now args
  else if name = "save_note" then (save_note now args).1
  else if name = "convert_temperature" then convert_temperature now args
  else if name = "read_file" then read_file now fs args
  else if name = "get_time" then get_time now args
  else .err "UnknownToolError" ("Unknown tool: " ++ name) now

/-! ## The autonomous client loop (`openai_client.py`)

`run_autonomous_agent`'s per-turn body (lines 90-162).  The model
inference and the per-call tool execution are oracles: the model is a
function from the iteration number (the value of `iteration` when the
call is made, so 1-based) to a response or a raised exception, and the
tool executor maps a `ToolCall` to the extracted result text or a
raised exception (covering both `json.loads` and `session.call_tool`
failures). -/

/-- OpenAI chat roles. -/
inductive Role where
  | system
  | user
  | assistant
  | tool
deriving DecidableEq, Repr

/-- One tool call from an assistant response: id, function name, raw
JSON argument string. -/
structure ToolCall where
  id : String
  name : String
  arguments : String
deriving DecidableEq, Repr

/-- One entry of the `messages` list. -/
structure Message where
  role : Role
  content : Option String := none
  tool_calls : List ToolCall := []
  tool_call_id : Option String := none
deriving DecidableEq, Repr

/-- One model response: optional text plus an ordered tool-call list
(`None`/empty both modelled as `[]`). -/
structure ModelResponse where
  content : Option String
  tool_calls : List ToolCall
deriving DecidableEq, Repr

/-- The user message appended at `openai_client.py:91`. -/
def userMsg (s : String) : Message :=
  { role := .user, content := some s }

/-- The assistant message appended at `openai_client.py:115`. -/
def assistantMsg (r : ModelResponse) : Message :=
  { role := .assistant, content := r.content, tool_calls := r.tool_calls }

/-- The tool-role message appended at `openai_client.py:149`: the
result text, tagged with the originating call's id. -/
def toolMsg (tc : ToolCall) (result : String) : Message :=
  { role := .tool, content := some result, tool_call_id := some tc.id }

/-- Outcome of dispatching the calls of one batch: all results
appended, or an exception raised mid-batch (messages appended so far
are kept). -/
inductive DispatchResult where
  | ok (msgs : List Message)
  | raised (msgs : List Message) (e : String)
deriving DecidableEq, Repr

/-- The `for tool_call in assistant_message.tool_calls` loop
(`openai_client.py:130-153`): dispatch each call in model order and
append its tool-role message immediately. -/
def dispatchCalls (exec : ToolCall → Except String String) :
    List Message → List ToolCall → DispatchResult
  | msgs, [] => .ok msgs
  | msgs, tc :: rest =>
    match exec tc with
    | .error e => .raised msgs e
    | .ok r => dispatchCalls exec (msgs ++ [toolMsg tc r]) rest

/-- The messages a dispatch outcome leaves behind. -/
def DispatchResult.msgs : DispatchResult → List Message
  | .ok m => m
  | .raised m _ => m

/-- Outcome of the `while iteration < max_iterations` loop
(`openai_client.py:101-153`); `iter` is the final value of `iteration`,
i.e. the number of model-inference calls attempted this turn. -/
inductive LoopResult where
  | done (msgs : List Message) (iter : ℕ)
  | exhausted (msgs : List Message) (iter : ℕ)
  | raised (msgs : List Message) (iter : ℕ) (e : String)
deriving DecidableEq, Repr

/-- The messages a loop outcome leaves behind. -/
def LoopResult.msgs : LoopResult → List Message
  | .done m _ => m
  | .exhausted m _ => m
  | .raised m _ _ => m

/-- The final `iteration` value of a loop outcome. -/
def LoopResult.iter : LoopResult → ℕ
  | .done _ i => i
  | .exhausted _ i => i
  | .raised _ i _ => i

/-- The inference/dispatch loop, with `fuel = max_iterations - iteration`
making the `while` bound structural: increment `iteration`, call the
model, append the assistant message, break when there are no tool
calls, otherwise dispatch the batch and loop. -/
def turnLoopAux (model : ℕ → Except String ModelResponse)
    (exec : ToolCall → Except String String) :
    ℕ → ℕ → List Message → LoopResult
  | 0, iter, msgs => .exhausted msgs iter
  | fuel + 1, iter, msgs =>
    match model (iter + 1) with
    | .error e => .raised msgs (iter + 1) e
    | .ok resp =>
      let msgs1 := msgs ++ [assistantMsg resp]
      if resp.tool_calls = [] then .done msgs1 (iter + 1)
      else
        match dispatchCalls exec msgs1 resp.tool_calls with
        | .raised m e => .raised m (iter + 1) e
        | .ok m => turnLoopAux model exec fuel (iter + 1) m

/-- `max_iterations = 10` (`openai_client.py:98`). -/
def max_iterations : ℕ := 10

/-- The loop as entered at `openai_client.py:101`: `iteration = 0`,
full fuel. -/
def turnLoop (model : ℕ → Except String ModelResponse)
    (exec : ToolCall → Except String String) (msgs : List Message) : LoopResult :=
  turnLoopAux model exec max_iterations 0 msgs

/-- Whether the `iteration >= max_iterations` warning
(`openai_client.py:155-156`) is printed: reached after normal loop exit
only (an exception jumps straight to the handler). -/
def maxIterWarning : LoopResult → Bool
  | .done _ i => max_iterations ≤ i
  | .exhausted _ i => max_iterations ≤ i
  | .raised _ _ _ => false

/-- The `except` block (`openai_client.py:158-162`): pop the last
message if and only if it is a user message. -/
def handleTurnError (msgs : List Message) : List Message :=
  match msgs.getLast? with
  | some m => if m.role = .user then msgs.dropLast else msgs
  | none => msgs

/-- One full user turn (`openai_client.py:90-162`): append the user
message, run the loop, and on a raised exception apply the cleanup
policy.  Returns the conversation state the next turn starts from. -/
def runTurn (model : ℕ → Except String ModelResponse)
    (exec : ToolCall → Except String String)
    (msgs : List Message) (userInput : String) : List Message :=
  match turnLoop model exec (msgs ++ [userMsg userInput]) with
  | .done m _ => m
  | .exhausted m _ => m
  | .raised m _ _ => handleTurnError m

/-! ## Concrete fixtures for witnesses and counterexamples -/

/-- A concrete clock value. -/
def nowA : PyDatetime :=
  ⟨"2024-01-01T00:00:00", "January 01, 2024 at 12:00:00 AM", "1704067200"⟩

/-- A later clock value. -/
def nowB : PyDatetime :=
  ⟨"2024-06-15T12:30:00", "June 15, 2024 at 12:30:00 PM", "1718454600"⟩

/-- A file system holding no files: every `open` raises
`FileNotFoundError` with CPython's message. -/
def fsEmpty : String → Except PyErr String :=
  fun f => .error ⟨"FileNotFoundError", "[Errno 2] No such file or directory: '" ++ f ++ "'"⟩

/-- A tool executor that always succeeds. -/
def execOk : ToolCall → Except String String :=
  fun tc => .ok ("ok:" ++ tc.name)

/-- A sample tool call. -/
def tcSample : ToolCall := ⟨"call_1", "calculate", "{}"⟩

/-- A sample model response requesting one tool call. -/
def respSample : ModelResponse := ⟨none, [tcSample]⟩

/-- A system message, as seeded at session start. -/
def sysM : Message := { role := .system, content := some "sys" }

/-- A model that requests one tool call on the first inference and
fails with a transport error on the second. -/
def modelFailSecond : ℕ → Except String ModelResponse :=
  fun i => if i = 1 then .ok respSample else .error "APIConnectionError"

/-- A model that requests a tool call on every inference. -/
def modelAlwaysTools : ℕ → Except String ModelResponse :=
  fun _ => .ok respSample

/-- A model whose every inference call raises a transport error. -/
def modelAlwaysFails : ℕ → Except String ModelResponse :=
  fun _ => .error "APIConnectionError"

/-! ## Helper lemmas about the loop -/

/-- When every tool execution succeeds, dispatching a batch appends one
tool-role message per call, in call order. -/
theorem dispatchCalls_ok_eq (ex : ToolCall → String) (calls : List ToolCall) :
    ∀ msgs, dispatchCalls (fun tc => .ok (ex tc)) msgs calls
      = .ok (msgs ++ calls.map (fun tc => toolMsg tc (ex tc))) := by
  induction calls with
  | nil => intro msgs; simp [dispatchCalls]
  | cons tc rest ih => intro msgs; simp [dispatchCalls, ih]

/-- The loop's final `iteration` value is bounded by the starting value
plus the remaining fuel. -/
theorem turnLoopAux_iter_le (model : ℕ → Except String ModelResponse)
    (exec : ToolCall → Except String String) :
    ∀ fuel iter msgs, (turnLoopAux model exec fuel iter msgs).iter ≤ iter + fuel := by
  intro fuel
  induction fuel with
  | zero => intro iter msgs; simp [turnLoopAux, LoopResult.iter]
  | succ n ih =>
    intro iter msgs
    unfold turnLoopAux
    cases hm : model (iter + 1) with
    | error e => simp [LoopResult.iter]
    | ok resp =>
      by_cases htc : resp.tool_calls = []
      · simp [htc, LoopResult.iter]
      · simp only [htc, if_neg, if_false]
        cases hd : dispatchCalls exec (msgs ++ [assistantMsg resp]) resp.tool_calls with
        | raised m e => simp [LoopResult.iter]
        | ok m => exact le_trans (ih (iter + 1) m) (by omega)

/-- The loop exits through the fuel-exhausted branch only with
`iteration` equal to the starting value plus the fuel. -/
theorem turnLoopAux_exhausted_iter (model : ℕ → Except String ModelResponse)
    (exec : ToolCall → Except String String) :
    ∀ fuel iter msgs m i, turnLoopAux model exec fuel iter msgs = .exhausted m i →
      i = iter + fuel := by
  intro fuel
  induction fuel with
  | zero =>
    intro iter msgs m i h
    simp only [turnLoopAux, LoopResult.exhausted.injEq] at h
    omega
  | succ n ih =>
    intro iter msgs m i h
    unfold turnLoopAux at h
    cases hm : model (iter + 1) with
    | error e => rw [hm] at h; simp at h
    | ok resp =>
      rw [hm] at h
      by_cases htc : resp.tool_calls = []
      · simp [htc] at h
      · simp only [htc, if_neg, if_false] at h
        cases hd : dispatchCalls exec (msgs ++ [assistantMsg resp]) resp.tool_calls with
        | raised m' e => rw [hd] at h; simp at h
        | ok m' =>
          rw [hd] at h
          have := ih (iter + 1) m' m i h
          omega

/-! ## C1 and C3 -/

/-- C1: for every batch of tool calls returned by the model in one
assistant response, the loop dispatches the calls in model order and
appends exactly one tool-role message per call, in that order, each
tagged with the originating call's id, before the next model
inference (the loop only re-enters inference after the whole batch is
appended). -/
theorem batch_results_appended_in_call_order
    (ex : ToolCall → String) (msgs : List Message) (calls : List ToolCall) :
    dispatchCalls (fun tc => .ok (ex tc)) msgs calls
      = .ok (msgs ++ calls.map (fun tc => toolMsg tc (ex tc)))
    ∧ (∀ tc r, (toolMsg tc r).role = .tool ∧ (toolMsg tc r).tool_call_id = some tc.id)
    ∧ (∀ model fuel iter resp,
        model (iter + 1) = .ok resp → resp.tool_calls ≠ [] →
        turnLoopAux model (fun tc => .ok (ex tc)) (fuel + 1) iter msgs
          = turnLoopAux model (fun tc => .ok (ex tc)) fuel (iter + 1)
              (msgs ++ [assistantMsg resp]
                ++ resp.tool_calls.map (fun tc => toolMsg tc (ex tc)))) := by
  refine ⟨dispatchCalls_ok_eq ex calls msgs, fun tc r => ⟨rfl, rfl⟩, ?_⟩
  intro model fuel iter resp hm hne
  simp [turnLoopAux, hm, hne, dispatchCalls_ok_eq]

/-- Witness for C1: a concrete one-call batch, dispatched before the
next inference. -/
theorem batch_results_appended_in_call_order_witness :
    turnLoopAux modelAlwaysTools (fun tc => .ok ("ok:" ++ tc.name)) 1 0 [sysM]
      = turnLoopAux modelAlwaysTools (fun tc => .ok ("ok:" ++ tc.name)) 0 1
          ([sysM] ++ [assistantMsg respSample]
            ++ [tcSample].map (fun tc => toolMsg tc ("ok:" ++ tc.name))) :=
  (batch_results_appended_in_call_order (fun tc => "ok:" ++ tc.name) [sysM] [tcSample]).2.2
    modelAlwaysTools 0 0 respSample rfl (by decide)

/-- C3: within one user turn the number of model-inference cycles never
exceeds the configured ceiling of 10, and when the fuel-exhaustion exit
is taken (the model still requesting tool calls at the ceiling) the
loop terminates the turn with the max-iterations warning. -/
theorem turn_iteration_ceiling (model : ℕ → Except String ModelResponse)
    (exec : ToolCall → Except String String) (msgs : List Message) :
    (turnLoop model exec msgs).iter ≤ max_iterations
    ∧ ∀ m i, turnLoop model exec msgs = .exhausted m i →
        i = max_iterations ∧ maxIterWarning (turnLoop model exec msgs) = true := by
  constructor
  · simpa [turnLoop] using turnLoopAux_iter_le model exec max_iterations 0 msgs
  · intro m i h
    have hi : i = 0 + max_iterations :=
      turnLoopAux_exhausted_iter model exec max_iterations 0 msgs m i h
    refine ⟨by omega, ?_⟩
    rw [h]
    simp [maxIterWarning, hi]

/-- Witness for C3: a model that requests tools forever is stopped at
exactly 10 inference cycles, with the warning. -/
theorem turn_iteration_ceiling_witness :
    (10 : ℕ) = max_iterations
    ∧ maxIterWarning (turnLoop modelAlwaysTools execOk [sysM]) = true :=
  (turn_iteration_ceiling modelAlwaysTools execOk [sysM]).2
    (turnLoop modelAlwaysTools execOk [sysM]).msgs 10 rfl

/-! ## C2 and C8: turn-level error cleanup -/

/-- Dispatching only ever appends to the message list, also when an
exception is raised mid-batch. -/
theorem dispatchCalls_msgs_frame (exec : ToolCall → Except String String)
    (calls : List ToolCall) :
    ∀ msgs, ∃ rest, (dispatchCalls exec msgs calls).msgs = msgs ++ rest := by
  induction calls with
  | nil => intro msgs; exact ⟨[], by simp [dispatchCalls, DispatchResult.msgs]⟩
  | cons tc rest ih =>
    intro msgs
    cases he : exec tc with
    | error e => exact ⟨[], by simp [dispatchCalls, he, DispatchResult.msgs]⟩
    | ok r =>
      obtain ⟨r2, hr2⟩ := ih (msgs ++ [toolMsg tc r])
      exact ⟨toolMsg tc r :: r2, by simp [dispatchCalls, he, hr2]⟩

/-- The loop body only ever appends to the message list, whatever the
model and the tools do. -/
theorem turnLoopAux_msgs_frame (model : ℕ → Except String ModelResponse)
    (exec : ToolCall → Except String String) :
    ∀ fuel iter msgs, ∃ rest,
      (turnLoopAux model exec fuel iter msgs).msgs = msgs ++ rest := by
  intro fuel
  induction fuel with
  | zero => intro iter msgs; exact ⟨[], by simp [turnLoopAux, LoopResult.msgs]⟩
  | succ n ih =>
    intro iter msgs
    cases hm : model (iter + 1) with
    | error e => exact ⟨[], by simp [turnLoopAux, hm, LoopResult.msgs]⟩
    | ok resp =>
      by_cases htc : resp.tool_calls = []
      · exact ⟨[assistantMsg resp],
          by simp [turnLoopAux, hm, htc, LoopResult.msgs]⟩
      · obtain ⟨r1, hr1⟩ :=
          dispatchCalls_msgs_frame exec resp.tool_calls (msgs ++ [assistantMsg resp])
        cases hd : dispatchCalls exec (msgs ++ [assistantMsg resp]) resp.tool_calls with
        | raised m e =>
          rw [hd] at hr1
          simp only [DispatchResult.msgs] at hr1
          refine ⟨[assistantMsg resp] ++ r1, ?_⟩
          simp [turnLoopAux, hm, htc, hd, LoopResult.msgs, hr1]
        | ok m =>
          rw [hd] at hr1
          simp only [DispatchResult.msgs] at hr1
          obtain ⟨r2, hr2⟩ := ih (iter + 1) m
          refine ⟨[assistantMsg resp] ++ r1 ++ r2, ?_⟩
          have hloop : turnLoopAux model exec (n + 1) iter msgs
              = turnLoopAux model exec n (iter + 1) m := by
            conv_lhs => rw [turnLoopAux]
            rw [hm]
            simp [htc, hd]
          rw [hloop, hr2, hr1]
          simp

/-- The error handler either leaves the list unchanged or removes
exactly the last element. -/
theorem handleTurnError_eq_or_dropLast (m : List Message) :
    handleTurnError m = m ∨ handleTurnError m = m.dropLast := by
  unfold handleTurnError
  cases h : m.getLast? with
  | none => exact .inl rfl
  | some last =>
    by_cases hr : last.role = .user
    · right; simp [hr]
    · left; simp [hr]

/-- `runTurn` on a loop that raised: the cleanup policy is applied. -/
theorem runTurn_raised_eq (model : ℕ → Except String ModelResponse)
    (exec : ToolCall → Except String String) (msgs : List Message) (u : String)
    (m : List Message) (i : ℕ) (e : String)
    (h : turnLoop model exec (msgs ++ [userMsg u]) = .raised m i e) :
    runTurn model exec msgs u = handleTurnError m := by
  unfold runTurn
  rw [h]

/-- `runTurn` on a loop that completed normally. -/
theorem runTurn_done_eq (model : ℕ → Except String ModelResponse)
    (exec : ToolCall → Except String String) (msgs : List Message) (u : String)
    (m : List Message) (i : ℕ)
    (h : turnLoop model exec (msgs ++ [userMsg u]) = .done m i) :
    runTurn model exec msgs u = m := by
  unfold runTurn
  rw [h]

/-- `runTurn` on a loop stopped by the iteration ceiling. -/
theorem runTurn_exhausted_eq (model : ℕ → Except String ModelResponse)
    (exec : ToolCall → Except String String) (msgs : List Message) (u : String)
    (m : List Message) (i : ℕ)
    (h : turnLoop model exec (msgs ++ [userMsg u]) = .exhausted m i) :
    runTurn model exec msgs u = m := by
  unfold runTurn
  rw [h]

/-- C2 counterexample: a transport error on the second inference of a
turn aborts the turn, but the conversation state keeps the triggering
user message and the assistant/tool messages appended earlier in the
turn — it does not roll back to the pre-turn state. -/
theorem turn_rollback_counterexample :
    runTurn modelFailSecond execOk [sysM] "hi" ≠ [sysM] := by decide

/-- C2 amended: when the model-inference or transport error hits the
very first inference of the turn (so the triggering user message is
still the most recent message), the state after the abort equals the
state before the user message was appended; in every case the messages
present before the turn are preserved as a prefix (the turn only
appends, and the cleanup can only remove the turn's own user
message). -/
theorem turn_error_rollback_amended (model : ℕ → Except String ModelResponse)
    (exec : ToolCall → Except String String) (msgs : List Message) (u : String) :
    (∀ e, model 1 = .error e → runTurn model exec msgs u = msgs)
    ∧ ∃ rest, runTurn model exec msgs u = msgs ++ rest := by
  constructor
  · intro e h
    have h10 : turnLoop model exec (msgs ++ [userMsg u])
        = .raised (msgs ++ [userMsg u]) 1 e := by
      show turnLoopAux model exec 10 0 (msgs ++ [userMsg u]) = _
      rw [show (10 : ℕ) = 9 + 1 from rfl]
      unfold turnLoopAux
      rw [show (0 : ℕ) + 1 = 1 from rfl, h]
    rw [runTurn_raised_eq model exec msgs u (msgs ++ [userMsg u]) 1 e h10]
    unfold handleTurnError
    rw [List.getLast?_concat]
    simp [userMsg, List.dropLast_concat]
  · obtain ⟨r1, hr1⟩ :=
      turnLoopAux_msgs_frame model exec max_iterations 0 (msgs ++ [userMsg u])
    cases hres : turnLoop model exec (msgs ++ [userMsg u]) with
    | done m i =>
      rw [turnLoop] at hres
      rw [hres] at hr1
      simp only [LoopResult.msgs] at hr1
      rw [runTurn_done_eq model exec msgs u m i (by rw [turnLoop, hres])]
      exact ⟨[userMsg u] ++ r1, by simp [hr1]⟩
    | exhausted m i =>
      rw [turnLoop] at hres
      rw [hres] at hr1
      simp only [LoopResult.msgs] at hr1
      rw [runTurn_exhausted_eq model exec msgs u m i (by rw [turnLoop, hres])]
      exact ⟨[userMsg u] ++ r1, by simp [hr1]⟩
    | raised m i e =>
      rw [turnLoop] at hres
      rw [hres] at hr1
      simp only [LoopResult.msgs] at hr1
      have hm : m = msgs ++ ([userMsg u] ++ r1) := by simp [hr1]
      have hrt : runTurn model exec msgs u = handleTurnError m :=
        runTurn_raised_eq model exec msgs u m i e (by rw [turnLoop, hres])
      rcases handleTurnError_eq_or_dropLast m with he | he
      · exact ⟨[userMsg u] ++ r1, by rw [hrt, he, hm]⟩
      · refine ⟨([userMsg u] ++ r1).dropLast, ?_⟩
        rw [hrt, he, hm, List.dropLast_append_of_ne_nil _ (by simp)]

/-- Witness for C2 amended: a first-inference failure rolls the state
back to exactly the pre-turn state. -/
theorem turn_error_rollback_amended_witness :
    runTurn modelAlwaysFails execOk [sysM] "hi" = [sysM] :=
  (turn_error_rollback_amended modelAlwaysFails execOk [sysM] "hi").1
    "APIConnectionError" rfl

/-- C8: on a turn-level error the handler removes at most one message —
the most recent one, and only when its role is `user`; when the most
recent message is an assistant or tool message, nothing is removed;
all earlier messages are left unchanged (the result is the list itself
or its `dropLast`). -/
theorem turn_error_cleanup_frame (m : List Message) :
    (∀ last, m.getLast? = some last → last.role = .user →
        handleTurnError m = m.dropLast)
    ∧ (∀ last, m.getLast? = some last → last.role ≠ .user →
        handleTurnError m = m)
    ∧ (handleTurnError m = m ∨ handleTurnError m = m.dropLast) := by
  refine ⟨?_, ?_, handleTurnError_eq_or_dropLast m⟩
  · intro last hl hr
    unfold handleTurnError
    rw [hl]
    simp [hr]
  · intro last hl hr
    unfold handleTurnError
    rw [hl]
    simp [hr]

/-- Witness for C8: a trailing user message is removed; a trailing tool
message is kept with the whole list unchanged. -/
theorem turn_error_cleanup_frame_witness :
    handleTurnError [sysM, userMsg "hi"] = [sysM]
    ∧ handleTurnError [sysM, toolMsg tcSample "r"] = [sysM, toolMsg tcSample "r"] :=
  ⟨(turn_error_cleanup_frame [sysM, userMsg "hi"]).1 (userMsg "hi") rfl rfl,
   (turn_error_cleanup_frame [sysM, toolMsg tcSample "r"]).2.1
     (toolMsg tcSample "r") rfl (by decide)⟩

/-! ## C4, C5, C6, C7, C10: the tool invoker -/

/-- C4: an argument payload that violates a tool's declared input
constraint makes `invoke` return `is_error=true` with a message naming
the violated constraint; the handler logic after validation never runs,
and `save_note`'s file write does not occur.  The concrete conjuncts
cover divide-by-zero, a temperature below -459.67°F, a path-traversal
filename, and a missing required field. -/
theorem invoke_rejects_invalid_arguments (now : PyDatetime)
    (fs : String → Except PyErr String) (args : Args) :
    (∀ e, validateCalculate args = .error e →
        calculate now args = .err e.etype e.msg now)
    ∧ (∀ e, validateNote args = .error e →
        save_note now args = (.err e.etype e.msg now, none))
    ∧ (∀ e, validateTemperature args = .error e →
        convert_temperature now args = .err e.etype e.msg now)
    ∧ (∀ e, validateFileRead args = .error e →
        read_file now fs args = .err e.etype e.msg now)
    ∧ calculate now [("operation", .jstr "divide"), ("a", .jnum 10), ("b", .jnum 0)]
        = .err "ValidationError" "b: Value error, Cannot divide by zero" now
    ∧ convert_temperature now [("temperature_fahrenheit", .jnum (-500))]
        = .err "ValidationError"
            "temperature_fahrenheit: Value error, Temperature cannot be below absolute zero (-459.67°F)"
            now
    ∧ read_file now fs [("filename", .jstr "../etc/passwd")]
        = .err "ValidationError"
            "filename: Value error, Invalid filename - path traversal not allowed" now
    ∧ save_note now [("content", .jstr "hello")]
        = (.err "ValidationError" "title: Field required" now, none) := by
  refine ⟨?_, ?_, ?_, ?_, ?_, ?_, ?_, ?_⟩
  · intro e h; unfold calculate; rw [h]
  · intro e h; unfold save_note; rw [h]
  · intro e h; unfold convert_temperature; rw [h]
  · intro e h; unfold read_file; rw [h]
  · with_unfolding_all rfl
  · with_unfolding_all rfl
  · with_unfolding_all rfl
  · with_unfolding_all rfl

/-- Witness for C4: the missing-title payload is rejected with the
constraint named and no file written. -/
theorem invoke_rejects_invalid_arguments_witness :
    save_note nowA [("content", .jstr "hello")]
      = (.err "ValidationError" "title: Field required" nowA, none) :=
  (invoke_rejects_invalid_arguments nowA fsEmpty [("content", .jstr "hello")]).2.1
    ⟨"ValidationError", "title: Field required"⟩ rfl

/-- C5 counterexample: calculate(add, 2, 3) succeeds with result 5, but
its formatted string is `"2.0 add 3.0 = 5.0"` — Python floats print
with a decimal point — not `"2 add 3 = 5"`; moreover the content is not
derived solely from the arguments: it also carries the current
timestamp, so the same arguments at two clock values give different
content. -/
theorem calculate_formatted_counterexample :
    calculate nowA [("operation", .jstr "add"), ("a", .jnum 2), ("b", .jnum 3)]
      = .ok (.calc { operation := "add", operand_a := 2, operand_b := 3, result := 5,
                     formatted := "2.0 add 3.0 = 5.0", timestamp := nowA })
    ∧ "2.0 add 3.0 = 5.0" ≠ "2 add 3 = 5"
    ∧ calculate nowA [("operation", .jstr "add"), ("a", .jnum 2), ("b", .jnum 3)]
      ≠ calculate nowB [("operation", .jstr "add"), ("a", .jnum 2), ("b", .jnum 3)] := by
  have e1 : calculate nowA [("operation", .jstr "add"), ("a", .jnum 2), ("b", .jnum 3)]
      = .ok (.calc { operation := "add", operand_a := 2, operand_b := 3, result := 5,
                     formatted := "2.0 add 3.0 = 5.0", timestamp := nowA }) := by
    with_unfolding_all rfl
  have e2 : calculate nowB [("operation", .jstr "add"), ("a", .jnum 2), ("b", .jnum 3)]
      = .ok (.calc { operation := "add", operand_a := 2, operand_b := 3, result := 5,
                     formatted := "2.0 add 3.0 = 5.0", timestamp := nowB }) := by
    with_unfolding_all rfl
  refine ⟨e1, by decide, ?_⟩
  rw [e1, e2]
  simp [nowA, nowB]

/-- C5 amended: for schema-valid arguments `invoke` returns
`is_error=false`; for `calculate` the `result` and `formatted` fields
are functions of the validated arguments alone, while the serialized
content additionally records the current timestamp; calculate(add, 2, 3)
yields result 5 (the float `5.0`) and formatted string
`"2.0 add 3.0 = 5.0"`. -/
theorem invoke_valid_arguments (now : PyDatetime)
    (fs : String → Except PyErr String) :
    (∀ args i, validateCalculate args = .ok i →
        calculate now args = .ok (.calc
          { operation := i.operation, operand_a := i.a, operand_b := i.b,
            result := applyOp i.operation i.a i.b,
            formatted := pyFloatRepr i.a ++ " " ++ i.operation ++ " "
              ++ pyFloatRepr i.b ++ " = " ++ pyFloatRepr (applyOp i.operation i.a i.b),
            timestamp := now })
        ∧ (calculate now args).is_error = false)
    ∧ (∀ args i, validateWeather args = .ok i → (get_weather now args).is_error = false)
    ∧ (∀ args i, validateNote args = .ok i → ((save_note now args).1).is_error = false)
    ∧ (∀ args i, validateTemperature args = .ok i →
        (convert_temperature now args).is_error = false)
    ∧ (∀ args i c, validateFileRead args = .ok i → fs i.filename = .ok c →
        (read_file now fs args).is_error = false)
    ∧ (∀ args f, validateTime args = .ok f → (get_time now args).is_error = false)
    ∧ calculate now [("operation", .jstr "add"), ("a", .jnum 2), ("b", .jnum 3)]
        = .ok (.calc { operation := "add", operand_a := 2, operand_b := 3, result := 5,
                       formatted := "2.0 add 3.0 = 5.0", timestamp := now }) := by
  refine ⟨?_, ?_, ?_, ?_, ?_, ?_, ?_⟩
  · intro args i h
    constructor
    · unfold calculate; rw [h]
    · unfold calculate ToolOutput.is_error; rw [h]
  · intro args i h
    unfold get_weather ToolOutput.is_error; rw [h]
  · intro args i h
    unfold save_note ToolOutput.is_error; rw [h]
  · intro args i h
    unfold convert_temperature ToolOutput.is_error; rw [h]
  · intro args i c h hf
    unfold read_file ToolOutput.is_error
    rw [h]
    simp [hf]
  · intro args f h
    unfold get_time ToolOutput.is_error; rw [h]
  · with_unfolding_all rfl

/-- Witness for C5 amended: concrete valid arguments give a non-error
result. -/
theorem invoke_valid_arguments_witness :
    (calculate nowA [("operation", .jstr "add"), ("a", .jnum 2), ("b", .jnum 3)]).is_error
      = false :=
  ((invoke_valid_arguments nowA fsEmpty).1
    [("operation", .jstr "add"), ("a", .jnum 2), ("b", .jnum 3)] ⟨"add", 2, 3⟩ rfl).2

/-- C6: a tool name outside the registry produces an
`UnknownToolError` `ErrorOutput` (so `is_error=true`) for every
argument payload, clock and file system, and the invoker never raises:
it returns this value. -/
theorem unknown_tool_rejected (now : PyDatetime)
    (fs : String → Except PyErr String) (name : String) (args : Args)
    (h : name ∉ TOOL_HANDLERS) :
    call_tool now fs name args = .err "UnknownToolError" ("Unknown tool: " ++ name) now
    ∧ (call_tool now fs name args).is_error = true := by
  simp only [TOOL_HANDLERS, List.mem_cons, List.not_mem_nil, or_false, not_or] at h
  obtain ⟨h1, h2, h3, h4, h5, h6⟩ := h
  have hcall : call_tool now fs name args
      = .err "UnknownToolError" ("Unknown tool: " ++ name) now := by
    unfold call_tool
    rw [if_neg h1, if_neg h2, if_neg h3, if_neg h4, if_neg h5, if_neg h6]
  exact ⟨hcall, by rw [hcall]; rfl⟩

/-- Witness for C6: a concrete unregistered name. -/
theorem unknown_tool_rejected_witness :
    call_tool nowA fsEmpty "frobnicate" []
      = .err "UnknownToolError" ("Unknown tool: " ++ "frobnicate") nowA
    ∧ (call_tool nowA fsEmpty "frobnicate" []).is_error = true :=
  unknown_tool_rejected nowA fsEmpty "frobnicate" [] (by decide)

/-- C7 counterexample: on a schema-valid filename whose `open` raises
`FileNotFoundError`, the invoker returns `is_error=true` with the
category preserved but a substituted message naming the file — not the
underlying exception's message verbatim. -/
theorem handler_error_message_counterexample :
    read_file nowA fsEmpty [("filename", .jstr "x.txt")]
      = .err "FileNotFoundError" "File 'x.txt' not found" nowA
    ∧ fsEmpty "x.txt"
      = .error ⟨"FileNotFoundError", "[Errno 2] No such file or directory: 'x.txt'"⟩
    ∧ "File 'x.txt' not found" ≠ "[Errno 2] No such file or directory: 'x.txt'" :=
  ⟨by with_unfolding_all rfl, rfl, by decide⟩

/-- C7 amended: a handler exception on schema-valid input is always
caught and converted to `is_error=true` — never propagated — with the
exception's class name preserved; the message is preserved verbatim for
every exception except `read_file`'s `FileNotFoundError` branch, which
substitutes `File '<filename>' not found`. -/
theorem handler_exception_captured (now : PyDatetime)
    (fs : String → Except PyErr String) (args : Args) (i : FileIn) (exc : PyErr)
    (hv : validateFileRead args = .ok i) (hf : fs i.filename = .error exc) :
    (read_file now fs args).is_error = true
    ∧ (exc.etype ≠ "FileNotFoundError" →
        read_file now fs args = .err exc.etype exc.msg now)
    ∧ (exc.etype = "FileNotFoundError" →
        read_file now fs args
          = .err "FileNotFoundError" ("File '" ++ rawFilename args ++ "' not found") now) := by
  have hrf : read_file now fs args
      = if exc.etype = "FileNotFoundError" then
          .err "FileNotFoundError" ("File '" ++ rawFilename args ++ "' not found") now
        else .err exc.etype exc.msg now := by
    simp only [read_file, hv, hf]
  refine ⟨?_, ?_, ?_⟩
  · rw [hrf]; split <;> rfl
  · intro hne; rw [hrf, if_neg hne]
  · intro he; rw [hrf, if_pos he]

/-- Witness for C7 amended: a `PermissionError` is captured with
category and message verbatim. -/
theorem handler_exception_captured_witness :
    read_file nowA (fun _ => .error ⟨"PermissionError", "[Errno 13] Permission denied: 'x.txt'"⟩)
        [("filename", .jstr "x.txt")]
      = .err "PermissionError" "[Errno 13] Permission denied: 'x.txt'" nowA :=
  (handler_exception_captured nowA
      (fun _ => .error ⟨"PermissionError", "[Errno 13] Permission denied: 'x.txt'"⟩)
      [("filename", .jstr "x.txt")] ⟨"x.txt"⟩
      ⟨"PermissionError", "[Errno 13] Permission denied: 'x.txt'"⟩
      rfl rfl).2.1 (by decide)

/-- C10: with no `format` argument, validation succeeds with the
default `"iso"`, and the output's `formatted` field is the ISO-8601
rendering (`isoformat()`) of the current time, with `format_type`
`"iso"`. -/
theorem get_time_default_iso (now : PyDatetime) (args : Args)
    (h : getArg args "format" = none) :
    validateTime args = .ok "iso"
    ∧ get_time now args
      = .ok (.time { timestamp := now, formatted := now.iso,
                     format_type := "iso", timezone := "UTC" }) := by
  have hv : validateTime args = .ok "iso" := by
    unfold validateTime
    rw [h]
  refine ⟨hv, ?_⟩
  unfold get_time
  rw [hv]
  simp

/-- Witness for C10: the empty payload defaults to iso. -/
theorem get_time_default_iso_witness :
    get_time nowA [] = .ok (.time { timestamp := nowA, formatted := nowA.iso,
                                    format_type := "iso", timezone := "UTC" }) :=
  (get_time_default_iso nowA [] rfl).2

/-! ## C9: safety of the note filename -/

/-- Stripping only removes characters. -/
theorem pyStrip_subset (l : List Char) : ∀ c ∈ pyStrip l, c ∈ l := by
  intro c hc
  unfold pyStrip at hc
  rw [List.mem_reverse] at hc
  have hc2 := List.Sublist.mem hc (List.dropWhile_sublist _)
  rw [List.mem_reverse] at hc2
  exact List.Sublist.mem hc2 (List.dropWhile_sublist _)

/-- A sanitized title consists of whitelisted characters only. -/
theorem sanitizeTitle_chars (v s : List Char) (h : sanitizeTitle v = .ok s) :
    ∀ c ∈ s, c ∈ safeCharsList := by
  simp only [sanitizeTitle] at h
  split at h
  · exact absurd h (by simp)
  · injection h with h2
    subst h2
    intro c hc
    have hcf := pyStrip_subset _ c hc
    have := (List.mem_filter.mp hcf).2
    simpa using this

/-- Every character of a title accepted by note validation is
whitelisted (the title came out of `sanitizeTitle`). -/
theorem validateNote_title_chars (args : Args) (i : NoteIn)
    (h : validateNote args = .ok i) : ∀ c ∈ i.title, c ∈ safeCharsList := by
  unfold validateNote at h
  split at h
  · exact absurd h (by simp)
  · split at h
    · exact absurd h (by simp)
    · split at h
      · exact absurd h (by simp)
      · split at h
        · exact absurd h (by simp)
        · split at h
          · exact absurd h (by simp)
          · split at h
            · exact absurd h (by simp)
            · split at h
              · injection h with h2; subst h2
                exact sanitizeTitle_chars _ _ (by assumption)
              · injection h with h2; subst h2
                exact sanitizeTitle_chars _ _ (by assumption)
              · injection h with h2; subst h2
                exact sanitizeTitle_chars _ _ (by assumption)
              · exact absurd h (by simp)
          · exact absurd h (by simp)
  · exact absurd h (by simp)

/-- C9: for every accepted `NoteInput` the filename `save_note` writes
is exactly `"note_" ++ (sanitized title with spaces replaced by
underscores) ++ ".txt"`; besides the fixed prefix and extension it
contains only ASCII alphanumerics, `-` and `_`; it contains no path
separator (`/` or `\`) and no `..` (the filename has exactly one `.`,
the extension's). -/
theorem note_filename_safe (args : Args) (i : NoteIn)
    (h : validateNote args = .ok i) :
    noteFilename i.title
      = "note_".toList ++ i.title.map (fun c => if c = ' ' then '_' else c)
        ++ ".txt".toList
    ∧ (∀ c ∈ i.title.map (fun c => if c = ' ' then '_' else c),
        c.isAlphanum = true ∨ c = '-' ∨ c = '_')
    ∧ '/' ∉ noteFilename i.title
    ∧ '\\' ∉ noteFilename i.title
    ∧ (noteFilename i.title).count '.' = 1
    ∧ ∀ l₁ l₂, noteFilename i.title ≠ l₁ ++ '.' :: '.' :: l₂ := by
  have htitle : ∀ c ∈ i.title, c ∈ safeCharsList := validateNote_title_chars args i h
  have hmid : ∀ c ∈ i.title.map (fun c => if c = ' ' then '_' else c),
      c.isAlphanum = true ∨ c = '-' ∨ c = '_' := by
    intro c hc
    rw [List.mem_map] at hc
    obtain ⟨c0, hc0, hceq⟩ := hc
    have hfact : ∀ x ∈ safeCharsList, (if x = ' ' then '_' else x).isAlphanum = true
        ∨ (if x = ' ' then '_' else x) = '-' ∨ (if x = ' ' then '_' else x) = '_' := by
      decide
    rw [← hceq]
    exact hfact c0 (htitle c0 hc0)
  have hnotin : ∀ d : Char, d.isAlphanum = false → d ≠ '-' → d ≠ '_' →
      d ∉ i.title.map (fun c => if c = ' ' then '_' else c) := by
    intro d hd1 hd2 hd3 hmem
    rcases hmid d hmem with h1 | h1 | h1
    · rw [hd1] at h1; exact absurd h1 (by decide)
    · exact hd2 h1
    · exact hd3 h1
  have hslash : '/' ∉ noteFilename i.title := by
    unfold noteFilename
    intro hmem
    rw [List.append_assoc, List.mem_append, List.mem_append] at hmem
    rcases hmem with h1 | h1 | h1
    · exact absurd h1 (by decide)
    · exact hnotin '/' (by decide) (by decide) (by decide) h1
    · exact absurd h1 (by decide)
  have hback : '\\' ∉ noteFilename i.title := by
    unfold noteFilename
    intro hmem
    rw [List.append_assoc, List.mem_append, List.mem_append] at hmem
    rcases hmem with h1 | h1 | h1
    · exact absurd h1 (by decide)
    · exact hnotin '\\' (by decide) (by decide) (by decide) h1
    · exact absurd h1 (by decide)
  have hcount : (noteFilename i.title).count '.' = 1 := by
    unfold noteFilename
    rw [List.count_append, List.count_append]
    have c1 : ("note_".toList).count '.' = 0 := by decide
    have c3 : (".txt".toList).count '.' = 1 := by decide
    have c2 : (i.title.map (fun c => if c = ' ' then '_' else c)).count '.' = 0 :=
      List.count_eq_zero.mpr (hnotin '.' (by decide) (by decide) (by decide))
    rw [c1, c2, c3]
  refine ⟨rfl, hmid, hslash, hback, hcount, ?_⟩
  intro l₁ l₂ heq
  have h2 : (l₁ ++ '.' :: '.' :: l₂).count '.'
      = l₁.count '.' + (l₂.count '.' + 2) := by
    rw [List.count_append]
    simp [List.count_cons]
  rw [heq, h2] at hcount
  omega

/-- Witness for C9: the concrete title `my note` yields
`note_my_note.txt`, slash-free with a single dot. -/
theorem note_filename_safe_witness :
    (noteFilename ("my note".toList)).count '.' = 1
    ∧ '/' ∉ noteFilename ("my note".toList) :=
  ⟨(note_filename_safe [("title", .jstr "my note"), ("content", .jstr "hi")]
      ⟨"my note".toList, "hi", none⟩ rfl).2.2.2.2.1,
   (note_filename_safe [("title", .jstr "my note"), ("content", .jstr "hi")]
      ⟨"my note".toList, "hi", none⟩ rfl).2.2.1⟩

end McpServer


